import Mathlib

/-!
Shallow embedding of the reconciliation core of `src/proton.rs`
(mozilla/bug-status): the Jira/Bugzilla link resolver with its on-disk
link cache, the bug merger, and the discrepancy classifier from `main`.

Modelling conventions:
- JSON values already decoded by serde are represented by typed records;
  a `panic!` / `?`-propagated failure in the source is modelled as `none`
  (resp. returning `none` for the whole run step).
- Remote HTTP endpoints are oracles passed as functions: `remote` models
  the per-issue `remotelink` endpoint (the list of `object.url` strings
  of a well-formed response) and `bz` models the bulk Bugzilla fetch,
  already keyed by bug id as the source builds `bz_statuses`.
- Rust `String` is Lean `String`; `str::replace`, `ends_with`,
  `is_empty` and `u64::from_str` are re-implemented on the character
  list so that every definition evaluates by `decide` / `rfl`.
-/

/-- Character-level model of Rust `str::replace`, fuelled for
structural recursion: every scanning step consumes at least one
character, so fuel equal to the list length never runs out. -/
def replaceAllFuel (pat rep : List Char) : Nat → List Char → List Char
  | _, [] => []
  | 0, l => l
  | n + 1, c :: cs =>
    if pat.isPrefixOf (c :: cs) then
      rep ++ replaceAllFuel pat rep n (List.drop (pat.length - 1) cs)
    else
      c :: replaceAllFuel pat rep n cs

/-- Character-level model of Rust `str::replace`: replace every
non-overlapping occurrence of `pat`, scanning left to right. -/
def replaceAll (pat rep : List Char) (l : List Char) : List Char :=
  replaceAllFuel pat rep l.length l

/-- Rust `s.replace(pat, rep)` on Lean strings. -/
def rustReplace (s pat rep : String) : String :=
  ⟨replaceAll pat.data rep.data s.data⟩

/-- Rust `s.ends_with(post)`. -/
def rustEndsWith (s post : String) : Bool :=
  post.data.isSuffixOf s.data

/-- Rust `s.parse::<u64>().ok()`: optional leading plus sign, at least
one ASCII digit, rejecting values of 2^64 and above. -/
def parseU64 (s : String) : Option Nat :=
  let t := if s.data.head? == some '+' then s.data.drop 1 else s.data
  if !t.isEmpty && t.all Char.isDigit then
    let n := t.foldl (fun acc c => acc * 10 + (c.toNat - 48)) 0
    if n < 2 ^ 64 then some n else none
  else none

/-- `JiraIssue` (proton.rs:26): the normalized source-tracker record. -/
structure JiraIssue where
  key : String
  id : String
  assignee : Option String
  epic : Option String
  sprints : List String
  status : String
  points : Option Nat
deriving Repr, DecidableEq

/-- `BugzillaJiraLink` (proton.rs:120): a resolved pairing between a
Jira key and a Bugzilla bug id.  NOTE: the field is named `cached` in
the source, but `BugzillaJiraLink::new` stores `false` on a cache hit
and `true` on a cache miss, so its VALUE tracks what the spec calls
`newly_discovered`. -/
structure BugzillaJiraLink where
  bugzilla : String
  jira : JiraIssue
  cached : Bool
deriving Repr, DecidableEq

/-- The link cache: a JSON object mapping Jira key to Bugzilla id
(string values; a non-string value panics at proton.rs:130). -/
abbrev Cache := List (String × String)

/-- serde `Map::insert`: replace the value when the key is present,
append otherwise. -/
def insertCache : Cache → String → String → Cache
  | [], k, v => [(k, v)]
  | (k', v') :: rest, k, v =>
    if k' == k then (k, v) :: rest else (k', v') :: insertCache rest k v

/-- The Bugzilla browse-URL base stripped at proton.rs:149. -/
def bugUrlBase : String := "https://bugzilla.mozilla.org/show_bug.cgi?id="

/-- `BugzillaJiraLink::new` (proton.rs:127-159).  `remote` gives, per
Jira key, the `object.url` strings of the remotelink response.  Returns
the optional link (`none` models the diagnosed empty-response exclusion
at proton.rs:137-140) together with the number of remote-link HTTP
calls made (0 on a cache hit, 1 on a miss). -/
def BugzillaJiraLink.new (jira : JiraIssue) (cachedData : Cache)
    (remote : String → List String) : Option BugzillaJiraLink × Nat :=
  match List.lookup jira.key cachedData with
  | some data => (some { bugzilla := data, jira := jira, cached := false }, 0)
  | none =>
    match remote jira.key with
    | [] => (none, 1)
    | url :: _ =>
      (some { bugzilla := rustReplace url bugUrlBase "", jira := jira,
              cached := true }, 1)

/-- One normalized attachment of a Bugzilla bug (fields read at
proton.rs:193-207); `is_obsolete` is `none` when the field is absent. -/
structure Attachment where
  is_obsolete : Option Nat
  content_type : Option String
deriving Repr, DecidableEq

/-- The per-attachment patch test inside `BugzillaBug::new`
(proton.rs:191-211). -/
def Attachment.isPatch (a : Attachment) : Bool :=
  let isObs := match a.is_obsolete with
    | some n => n == 1
    | none => false
  match a.content_type with
  | some ct => ct == "text/x-phabricator-request" && !isObs
  | none => false

/-- The raw Bugzilla record for one bug id, as read by
`BugzillaBug::new` (proton.rs:172-227); `attachments = none` models an
absent or non-array field. -/
structure BzData where
  status : String
  cf_fx_points : String
  attachments : Option (List Attachment)
  assigned_to : Option String
deriving Repr, DecidableEq

/-- `BugzillaBug` (proton.rs:161): the reconciled comparison record. -/
structure BugzillaBug where
  id : String
  status : String
  points : Option Nat
  assignee : Option String
  has_patch : Bool
  jira : JiraIssue
deriving Repr, DecidableEq

/-- `BugzillaBug::new` (proton.rs:171-237).  `bz` is the id-keyed view
of `bz_statuses`; a missing record panics in the source (`.unwrap()` at
proton.rs:174), modelled as `none`. -/
def BugzillaBug.new (link : BugzillaJiraLink) (bz : String → Option BzData) :
    Option BugzillaBug :=
  match bz link.bugzilla with
  | none => none
  | some d =>
    let hasPatch := match d.attachments with
      | some atts => atts.any Attachment.isPatch
      | none => false
    let assignee := match d.assigned_to with
      | some a => if a == "nobody@mozilla.org" then none else some a
      | none => none
    some { id := link.bugzilla, status := d.status,
           points := parseU64 d.cf_fx_points, assignee := assignee,
           has_patch := hasPatch, jira := link.jira }

/-- `BugzillaBug::get_jira_status` (proton.rs:239-253). -/
def BugzillaBug.get_jira_status (b : BugzillaBug) : String :=
  if b.status == "ASSIGNED" then
    if b.has_patch then "In Review" else "In Progress"
  else if b.status == "NEW" || b.status == "UNCONFIRMED" then "Open"
  else if b.status == "REOPENED" then "Reopened"
  else if b.status == "RESOLVED" then "Closed"
  else b.status

/-- The `BLAKE` fallback assignee (proton.rs:23). -/
def BLAKE : Option String := some "bwinton@mozilla.com"

/-- The body of `BugzillaBug::get_jira_assignee` (proton.rs:258-273):
the alias match arms, then the domain pass-through, then the fallback. -/
def remapAssignee (a : String) : Option String :=
  if a == "enndeakin@gmail.com" then some "neil@mozilla.com"
  else if a == "pbz@mozilla.com" then some "pzuhlcke@mozilla.com"
  else if a == "gl@mozilla.com" then some "gluong@mozilla.com"
  else if a == "jaws@mozilla.com" then some "jwein@mozilla.com"
  else if a == "mozilla@kaply.com" then some "mkaply@mozilla.com"
  else if a == "tnikkel@gmail.com" then some "tnikkel@mozilla.com"
  else if a == "dao+bmo@mozilla.com" then some "dgottwald@mozilla.com"
  else if a == "edilee@mozilla.com" then some "elee@mozilla.com"
  else if a == "eitan@monotonous.org" then some "eisaacson@mozilla.com"
  else if a == "andrei.br92@gmail.com" then some "aoprea@mozilla.com"
  else if rustEndsWith a "@mozilla.com" then some a
  else BLAKE

/-- `BugzillaBug::get_jira_assignee` (proton.rs:255-274). -/
def BugzillaBug.get_jira_assignee (b : BugzillaBug) : Option String :=
  match b.assignee with
  | none => none
  | some a => remapAssignee a

/-- The resolve phase of `get_bugs` (proton.rs:432-439): map
`BugzillaJiraLink::new` over the issues (rayon preserves collection
order), drop the `None`s, and count the remote-link calls issued. -/
def resolveLinks (issues : List JiraIssue) (cache : Cache)
    (remote : String → List String) : List BugzillaJiraLink × Nat :=
  match issues with
  | [] => ([], 0)
  | i :: is =>
    let r := BugzillaJiraLink.new i cache remote
    let rest := resolveLinks is cache remote
    (match r.1 with
     | some l => l :: rest.1
     | none => rest.1, r.2 + rest.2)

/-- The cache insertions staged by the final `filter_map` of `get_bugs`
(proton.rs:473-478): one `(key, bugzilla)` pair per link with
`cached = false`. -/
def stagedInserts (links : List BugzillaJiraLink) : List (String × String) :=
  (links.filter (fun l => !l.cached)).map (fun l => (l.jira.key, l.bugzilla))

/-- Apply staged insertions to the cache, in order. -/
def applyInserts (cache : Cache) (ins : List (String × String)) : Cache :=
  ins.foldl (fun c p => insertCache c p.1 p.2) cache

/-- The merge step of `get_bugs` (proton.rs:480-484): drop links whose
Bugzilla id is empty, build a `BugzillaBug` for the rest; a failed
`bz_statuses` lookup (a panic in the source) fails the whole run. -/
def buildBugs (links : List BugzillaJiraLink) (bz : String → Option BzData) :
    Option (List BugzillaBug) :=
  match links with
  | [] => some []
  | l :: ls =>
    if l.bugzilla == "" then buildBugs ls bz
    else
      match BugzillaBug.new l bz, buildBugs ls bz with
      | some b, some rest => some (b :: rest)
      | _, _ => none

/-- `get_bugs` (proton.rs:423-489) with the two HTTP collaborators as
oracles: returns the cache as mutated by the staged insertions, the
number of remote-link calls made by the resolve phase, and the merged
bug list (`none` when a merge lookup panics). -/
def get_bugs (issues : List JiraIssue) (cache : Cache)
    (remote : String → List String) (bz : String → Option BzData) :
    Cache × Nat × Option (List BugzillaBug) :=
  let r := resolveLinks issues cache remote
  (applyInserts cache (stagedInserts r.1), r.2, buildBugs r.1 bz)

/-- The condition of the newly-assigned-but-unsynced loop
(proton.rs:318). -/
def cat1Flag (b : BugzillaBug) : Bool :=
  b.get_jira_status == "Open" && b.assignee.isSome

/-- The in-place mutation of that loop (proton.rs:328): promote the raw
status to ASSIGNED when the bug is flagged. -/
def promoteBug (b : BugzillaBug) : BugzillaBug :=
  if cat1Flag b then { b with status := "ASSIGNED" } else b

/-- The points-mismatch condition (proton.rs:335). -/
def cat2Flag (b : BugzillaBug) : Bool :=
  b.points.isSome && b.points != b.jira.points

/-- The status-mismatch condition (proton.rs:348). -/
def cat3Flag (b : BugzillaBug) : Bool :=
  b.get_jira_status != b.jira.status

/-- The assignee-mismatch condition (proton.rs:361). -/
def cat4Flag (b : BugzillaBug) : Bool :=
  b.assignee.isSome && b.get_jira_assignee != b.jira.assignee

/-- The missing-epic condition (proton.rs:374). -/
def cat5Flag (b : BugzillaBug) : Bool :=
  b.jira.epic.isNone

/-- The missing-sprint condition (proton.rs:388). -/
def cat6Flag (b : BugzillaBug) : Bool :=
  !(["Open", "Reopened"].contains b.jira.status) && b.jira.sprints.isEmpty

/-- The data printed on each line of the six discrepancy sections of
`main` (proton.rs:315-397), one list per category, in loop order. -/
structure Report where
  cat1 : List (String × Option String)
  cat2 : List (String × Option Nat × Option Nat)
  cat3 : List (String × String × String)
  cat4 : List (String × Option String × Option String)
  cat5 : List (String × String)
  cat6 : List (String × String)
deriving Repr, DecidableEq

/-- The classification phase of `main` (proton.rs:315-397): the first
loop collects its lines from the original bugs and mutates each flagged
bug's status in place; the remaining five loops run over the mutated
list. -/
def classify (bugs : List BugzillaBug) : Report :=
  let promoted := bugs.map promoteBug
  { cat1 := (bugs.filter cat1Flag).map (fun b => (b.id, b.assignee)),
    cat2 := (promoted.filter cat2Flag).map
      (fun b => (b.id, b.jira.points, b.points)),
    cat3 := (promoted.filter cat3Flag).map
      (fun b => (b.id, b.jira.status, b.get_jira_status)),
    cat4 := (promoted.filter cat4Flag).map
      (fun b => (b.id, b.jira.assignee, b.assignee)),
    cat5 := (promoted.filter cat5Flag).map (fun b => (b.id, b.jira.key)),
    cat6 := (promoted.filter cat6Flag).map
      (fun b => (b.jira.key, b.jira.status)) }

/-- `need_changes` (proton.rs:315-397): true iff some category printed
a header, i.e. produced at least one line. -/
def need_changes (bugs : List BugzillaBug) : Bool :=
  let r := classify bugs
  !r.cat1.isEmpty || !r.cat2.isEmpty || !r.cat3.isEmpty ||
  !r.cat4.isEmpty || !r.cat5.isEmpty || !r.cat6.isEmpty

/-- Whether `main` prints the "No changes necessary" notice
(proton.rs:399-401). -/
def noChangesNotice (bugs : List BugzillaBug) : Bool :=
  !need_changes bugs

/-- The cache-loading step of `main` (proton.rs:280-292).  The file
system state is `none` when `jira.cache` is absent, `some none` when it
exists but holds invalid JSON, and `some (some c)` when it parses to
`c`.  Returns the file state after the step and `some c` when the run
continues with cache `c`, `none` when the `?` on `parsed_data` aborts
the run. -/
def loadCache (file : Option (Option Cache)) :
    Option (Option Cache) × Option Cache :=
  match file with
  | none => (some (some []), some [])
  | some (some c) => (some (some c), some c)
  | some none => (none, none)

/-- The status-mismatch category computed independently over a given
bug list, following the wording of the spec (category 3 of 4.5 as its
own pure function). -/
def statusMismatchOn (bugs : List BugzillaBug) :
    List (String × String × String) :=
  (bugs.filter cat3Flag).map (fun b => (b.id, b.jira.status, b.get_jira_status))

/-- The points-mismatch category computed independently over a given
bug list (category 2 of 4.5 as its own pure function). -/
def pointsMismatchOn (bugs : List BugzillaBug) :
    List (String × Option Nat × Option Nat) :=
  (bugs.filter cat2Flag).map (fun b => (b.id, b.jira.points, b.points))

/-- The assignee-mismatch category computed independently over a given
bug list (category 4 of 4.5 as its own pure function). -/
def assigneeMismatchOn (bugs : List BugzillaBug) :
    List (String × Option String × Option String) :=
  (bugs.filter cat4Flag).map (fun b => (b.id, b.jira.assignee, b.assignee))

/-- The missing-epic category computed independently over a given bug
list (category 5 of 4.5 as its own pure function). -/
def missingEpicOn (bugs : List BugzillaBug) : List (String × String) :=
  (bugs.filter cat5Flag).map (fun b => (b.id, b.jira.key))

/-- The missing-sprint category computed independently over a given bug
list (category 6 of 4.5 as its own pure function). -/
def missingSprintOn (bugs : List BugzillaBug) : List (String × String) :=
  (bugs.filter cat6Flag).map (fun b => (b.jira.key, b.jira.status))

/-- The status-derivation table exactly as the claim states it:
REOPENED grouped with "Open", VERIFIED grouped with "Closed". -/
def claimStatusTable (raw : String) (hasPatch : Bool) : String :=
  if raw == "ASSIGNED" then
    if hasPatch then "In Review" else "In Progress"
  else if raw == "NEW" || raw == "UNCONFIRMED" || raw == "REOPENED" then "Open"
  else if raw == "RESOLVED" || raw == "VERIFIED" then "Closed"
  else raw

/-- The status-derivation table as the source implements it: REOPENED
derives "Reopened", VERIFIED falls through to the pass-through arm. -/
def specStatusTable (raw : String) (hasPatch : Bool) : String :=
  if raw == "ASSIGNED" then
    if hasPatch then "In Review" else "In Progress"
  else if raw == "NEW" || raw == "UNCONFIRMED" then "Open"
  else if raw == "REOPENED" then "Reopened"
  else if raw == "RESOLVED" then "Closed"
  else raw

/-- The alias table of `get_jira_assignee` (proton.rs:259-268), spelled
out as data for quantification. -/
def aliasTable : List (String × String) :=
  [("enndeakin@gmail.com", "neil@mozilla.com"),
   ("pbz@mozilla.com", "pzuhlcke@mozilla.com"),
   ("gl@mozilla.com", "gluong@mozilla.com"),
   ("jaws@mozilla.com", "jwein@mozilla.com"),
   ("mozilla@kaply.com", "mkaply@mozilla.com"),
   ("tnikkel@gmail.com", "tnikkel@mozilla.com"),
   ("dao+bmo@mozilla.com", "dgottwald@mozilla.com"),
   ("edilee@mozilla.com", "elee@mozilla.com"),
   ("eitan@monotonous.org", "eisaacson@mozilla.com"),
   ("andrei.br92@gmail.com", "aoprea@mozilla.com")]

/-- Whether an address is one of the alias-table keys. -/
def isKnownAlias (s : String) : Bool :=
  aliasTable.any (fun p => s == p.1)

/-! Concrete inputs used by the closed theorems below. -/

/-- A source issue whose key is absent from every cache used below. -/
def c2Issue : JiraIssue :=
  { key := "FIDEFE-2", id := "i2", assignee := none, epic := none,
    sprints := [], status := "Open", points := none }

/-- A remotelink oracle answering only for `c2Issue` with one
well-formed linked object. -/
def c2Remote : String → List String := fun k =>
  if k == "FIDEFE-2" then ["https://bugzilla.mozilla.org/show_bug.cgi?id=123"] else []

/-- A Bugzilla oracle knowing only bug 123. -/
def c2Bz : String → Option BzData := fun i =>
  if i == "123" then
    some { status := "NEW", cf_fx_points := "", attachments := none,
           assigned_to := none }
  else none

/-- A representative source issue for the status-table theorems. -/
def sampleIssue : JiraIssue :=
  { key := "FIDEFE-1", id := "i1", assignee := none, epic := some "EPIC-1",
    sprints := ["Sprint 1"], status := "Open", points := none }

/-- A reconciled bug with the given raw Bugzilla status and no patch. -/
def mkStatusBug (st : String) : BugzillaBug :=
  { id := "100", status := st, points := none, assignee := none,
    has_patch := false, jira := sampleIssue }

/-- A bug that the newly-assigned-but-unsynced loop flags: raw status
NEW, an assignee, and a paired Jira status of "Open". -/
def c4Bug : BugzillaBug :=
  { id := "200", status := "NEW", points := none,
    assignee := some "person@mozilla.com", has_patch := false,
    jira := { key := "FIDEFE-4", id := "i4",
              assignee := some "person@mozilla.com", epic := some "EPIC-1",
              sprints := ["Sprint 1"], status := "Open", points := none } }

/-- A source issue used for the cache-hit and no-counterpart theorems. -/
def c7Issue : JiraIssue :=
  { key := "FIDEFE-7", id := "i7", assignee := none, epic := none,
    sprints := [], status := "Open", points := none }

/-- A resolved link to a bug assigned to the placeholder account. -/
def c10Link : BugzillaJiraLink :=
  { bugzilla := "300", jira := c7Issue, cached := true }

/-- A Bugzilla oracle whose only bug is assigned to
`nobody@mozilla.org`. -/
def c10Bz : String → Option BzData := fun i =>
  if i == "300" then
    some { status := "NEW", cf_fx_points := "", attachments := none,
           assigned_to := some "nobody@mozilla.org" }
  else none

/-! Helper lemmas: the in-place status promotion of the first
classifier loop only touches the `status` field. -/

theorem promoteBug_id (b : BugzillaBug) : (promoteBug b).id = b.id := by
  unfold promoteBug; split <;> rfl

theorem promoteBug_points (b : BugzillaBug) : (promoteBug b).points = b.points := by
  unfold promoteBug; split <;> rfl

theorem promoteBug_assignee (b : BugzillaBug) :
    (promoteBug b).assignee = b.assignee := by
  unfold promoteBug; split <;> rfl

theorem promoteBug_jira (b : BugzillaBug) : (promoteBug b).jira = b.jira := by
  unfold promoteBug; split <;> rfl

theorem promoteBug_cat2Flag (b : BugzillaBug) :
    cat2Flag (promoteBug b) = cat2Flag b := by
  unfold promoteBug cat2Flag; split <;> rfl

theorem promoteBug_cat4Flag (b : BugzillaBug) :
    cat4Flag (promoteBug b) = cat4Flag b := by
  unfold promoteBug cat4Flag BugzillaBug.get_jira_assignee; split <;> rfl

theorem promoteBug_cat5Flag (b : BugzillaBug) :
    cat5Flag (promoteBug b) = cat5Flag b := by
  unfold promoteBug cat5Flag; split <;> rfl

theorem promoteBug_cat6Flag (b : BugzillaBug) :
    cat6Flag (promoteBug b) = cat6Flag b := by
  unfold promoteBug cat6Flag; split <;> rfl

/-- Filtering and line rendering commute with the promotion map when
both ignore the promoted field. -/
theorem filterMap_promote {α : Type} (flag : BugzillaBug → Bool)
    (line : BugzillaBug → α)
    (hf : ∀ b, flag (promoteBug b) = flag b)
    (hl : ∀ b, line (promoteBug b) = line b) :
    ∀ bugs : List BugzillaBug,
      ((bugs.map promoteBug).filter flag).map line =
        (bugs.filter flag).map line := by
  intro bugs
  induction bugs with
  | nil => rfl
  | cons b bs ih =>
    simp only [List.map_cons, List.filter_cons, hf b]
    cases hb : flag b
    · simpa using ih
    · simp only [if_pos, List.map_cons, hl b, ih]

/-- The points-mismatch lines of a one-bug run. -/
theorem classify_cat2_singleton (b : BugzillaBug) :
    (classify [b]).cat2 =
      if cat2Flag b then [(b.id, b.jira.points, b.points)] else [] := by
  show (([b].map promoteBug).filter cat2Flag).map _ = _
  simp only [List.map_cons, List.map_nil, List.filter_cons, List.filter_nil,
    promoteBug_cat2Flag b]
  cases hb : cat2Flag b
  · simp
  · simp [promoteBug_id, promoteBug_jira, promoteBug_points]

/-- A merged bug keeps its link's Bugzilla id. -/
theorem BugzillaBug_new_id (l : BugzillaJiraLink) (bz : String → Option BzData)
    (b : BugzillaBug) (h : BugzillaBug.new l bz = some b) :
    b.id = l.bugzilla := by
  unfold BugzillaBug.new at h
  cases hd : bz l.bugzilla <;> rw [hd] at h
  · exact absurd h (by simp)
  · simp only [Option.some.injEq] at h
    rw [← h]

/-- Every bug surviving the merge step has a non-empty Bugzilla id. -/
theorem buildBugs_id_ne (bz : String → Option BzData) :
    ∀ (links : List BugzillaJiraLink) (bugs : List BugzillaBug),
      buildBugs links bz = some bugs → ∀ b ∈ bugs, b.id ≠ "" := by
  intro links
  induction links with
  | nil =>
    intro bugs h b hb
    unfold buildBugs at h
    simp only [Option.some.injEq] at h
    rw [← h] at hb
    exact absurd hb (by simp)
  | cons l ls ih =>
    intro bugs h b hb
    unfold buildBugs at h
    by_cases hl : (l.bugzilla == "") = true
    · rw [if_pos hl] at h
      exact ih bugs h b hb
    · rw [if_neg hl] at h
      cases hnew : BugzillaBug.new l bz <;> rw [hnew] at h
      · exact absurd h (by simp)
      · cases hrest : buildBugs ls bz <;> rw [hrest] at h
        · exact absurd h (by simp)
        · simp only [Option.some.injEq] at h
          rw [← h] at hb
          rcases List.mem_cons.mp hb with hb | hb
          · rw [hb, BugzillaBug_new_id l bz _ hnew]
            exact beq_eq_false_iff_ne.mp (Bool.not_eq_true _ ▸ hl)
          · exact ih _ hrest b hb

/-- Claim C1 (counterexample): the claimed 4.5 table is wrong on two
rows.  On a REOPENED bug `get_jira_status` yields "Reopened", not the
claimed "Open"; on a VERIFIED bug it passes "VERIFIED" through, not the
claimed "Closed". -/
theorem C1_cex :
    (mkStatusBug "REOPENED").get_jira_status ≠
      claimStatusTable (mkStatusBug "REOPENED").status
        (mkStatusBug "REOPENED").has_patch ∧
    (mkStatusBug "VERIFIED").get_jira_status ≠
      claimStatusTable (mkStatusBug "VERIFIED").status
        (mkStatusBug "VERIFIED").has_patch := by
  decide

/-- Claim C1 (amended): the derived target-equivalent status function
is total and follows the implemented table: ASSIGNED with a
non-obsolete patch-type attachment derives "In Review", ASSIGNED
without one "In Progress", NEW and UNCONFIRMED derive "Open", REOPENED
derives "Reopened", RESOLVED derives "Closed", and any other raw status
(including VERIFIED) passes through unchanged. -/
theorem C1_thm (b : BugzillaBug) :
    b.get_jira_status = specStatusTable b.status b.has_patch := rfl

/-- Claim C2 (code divergence, evaluated at the failing input): for an
issue whose key is not cached, resolution issues exactly one
remote-link lookup and succeeds, yet the run stages NO cache insertion
for it — the constructor marks the freshly discovered link
`cached := true`, so the `!link.cached` guard of `get_bugs` skips it,
and the cache returned by `get_bugs` is still empty; a link shaped like
a cache hit (`cached := false`) is the one that WOULD be staged. -/
theorem C2_thm :
    (get_bugs [c2Issue] [] c2Remote c2Bz).1 = [] ∧
    (get_bugs [c2Issue] [] c2Remote c2Bz).2.1 = 1 ∧
    (resolveLinks [c2Issue] [] c2Remote).1 =
      [{ bugzilla := "123", jira := c2Issue, cached := true }] ∧
    stagedInserts (resolveLinks [c2Issue] [] c2Remote).1 = [] ∧
    stagedInserts [{ bugzilla := "123", jira := c2Issue, cached := false }] =
      [("FIDEFE-2", "123")] := by
  decide

/-- Claim C3 (counterexample): on a cache file holding invalid JSON the
run does NOT continue with an empty cache — the second component of
`loadCache`, `none`, models the `?` on the parse result aborting
`main`, and it differs from continuing with the empty mapping. -/
theorem C3_cex :
    (loadCache (some none)).2 = none ∧ (none : Option Cache) ≠ some [] := by
  decide

/-- Claim C3 (amended): if the on-disk cache file exists but contains
invalid JSON, the program deletes the file and then aborts the run by
propagating the parse error; only a subsequent run, finding no file,
creates an empty cache and continues. -/
theorem C3_thm :
    loadCache (some none) = (none, none) ∧
    loadCache none = (some (some []), some []) := by
  decide

/-- Claim C4 (counterexample): the status-mismatch lines are NOT
independent of the newly-assigned-but-unsynced category.  `c4Bug` is
flagged by the first loop, its raw status is promoted to ASSIGNED in
place, and the status-mismatch loop then reports "In Progress" against
the paired "Open", whereas the independently computed category reports
nothing. -/
theorem C4_cex : (classify [c4Bug]).cat3 ≠ statusMismatchOn [c4Bug] := by
  decide

/-- Claim C4 (amended): the promotion of the raw status to ASSIGNED is
an in-place mutation that feeds the status-mismatch comparison: the
status-mismatch lines equal the independent computation over the
PROMOTED bugs, while the points, assignee, epic and sprint categories
are unaffected by the promotion and equal their independent
computations over the original bugs. -/
theorem C4_thm (bugs : List BugzillaBug) :
    (classify bugs).cat3 = statusMismatchOn (bugs.map promoteBug) ∧
    (classify bugs).cat2 = pointsMismatchOn bugs ∧
    (classify bugs).cat4 = assigneeMismatchOn bugs ∧
    (classify bugs).cat5 = missingEpicOn bugs ∧
    (classify bugs).cat6 = missingSprintOn bugs := by
  refine ⟨rfl, ?_, ?_, ?_, ?_⟩
  · exact filterMap_promote cat2Flag _ promoteBug_cat2Flag
      (fun b => by rw [promoteBug_id, promoteBug_jira, promoteBug_points]) bugs
  · exact filterMap_promote cat4Flag _ promoteBug_cat4Flag
      (fun b => by rw [promoteBug_id, promoteBug_jira, promoteBug_assignee]) bugs
  · exact filterMap_promote cat5Flag _ promoteBug_cat5Flag
      (fun b => by rw [promoteBug_id, promoteBug_jira]) bugs
  · exact filterMap_promote cat6Flag _ promoteBug_cat6Flag
      (fun b => by rw [promoteBug_jira]) bugs

/-- Claim C5: a points-mismatch line is emitted for a bug iff its
source (Bugzilla) points are present and differ from the paired (Jira)
points; in particular `some n` vs `none` is flagged, `none` vs `some n`
is not, and equal `some` values are not. -/
theorem C5_thm (b : BugzillaBug) :
    (classify [b]).cat2 ≠ [] ↔
      (b.points.isSome = true ∧ b.points ≠ b.jira.points) := by
  rw [classify_cat2_singleton]
  by_cases hb : cat2Flag b = true
  · rw [if_pos hb]
    simp only [cat2Flag, Bool.and_eq_true, bne_iff_ne] at hb
    simp [hb]
  · rw [if_neg hb]
    simp only [cat2Flag, Bool.and_eq_true, bne_iff_ne] at hb
    simp [hb]

/-- Claim C6: the assignee remapping maps every alias-table address to
its canonical address (in particular jaws to jwein), passes every other
address ending in "@mozilla.com" through unchanged, and maps every
remaining address to the fixed fallback identifier `BLAKE`. -/
theorem C6_thm :
    (∀ p ∈ aliasTable, remapAssignee p.1 = some p.2) ∧
    (∀ s : String, isKnownAlias s = false →
      rustEndsWith s "@mozilla.com" = true → remapAssignee s = some s) ∧
    (∀ s : String, isKnownAlias s = false →
      rustEndsWith s "@mozilla.com" = false → remapAssignee s = BLAKE) := by
  refine ⟨by decide, ?_, ?_⟩ <;>
  · intro s h hEnd
    simp only [isKnownAlias, aliasTable, List.any_cons, List.any_nil,
      Bool.or_eq_false_iff, beq_eq_false_iff_ne, ne_eq] at h
    obtain ⟨h1, h2, h3, h4, h5, h6, h7, h8, h9, h10, -⟩ := h
    simp [remapAssignee, h1, h2, h3, h4, h5, h6, h7, h8, h9, h10, hEnd]

/-- Witness for C6 at the three addresses named by the spec. -/
theorem C6_witness :
    remapAssignee "jaws@mozilla.com" = some "jwein@mozilla.com" ∧
    remapAssignee "someone@mozilla.com" = some "someone@mozilla.com" ∧
    remapAssignee "external@gmail.com" = BLAKE :=
  ⟨C6_thm.1 ("jaws@mozilla.com", "jwein@mozilla.com") (by decide),
   C6_thm.2.1 "someone@mozilla.com" (by decide) (by decide),
   C6_thm.2.2 "external@gmail.com" (by decide) (by decide)⟩

/-- Claim C7: for an issue whose key is in the cache, resolution makes
zero remote calls and returns the cached identifier unchanged, and the
resulting link's flag (the source's `cached` field, the spec's
`newly_discovered`) is false. -/
theorem C7_thm (jira : JiraIssue) (cache : Cache)
    (remote : String → List String) (v : String)
    (h : List.lookup jira.key cache = some v) :
    BugzillaJiraLink.new jira cache remote =
      (some { bugzilla := v, jira := jira, cached := false }, 0) := by
  unfold BugzillaJiraLink.new
  rw [h]

/-- Witness for C7 at a concrete one-entry cache. -/
theorem C7_witness :
    BugzillaJiraLink.new c7Issue [("FIDEFE-7", "123")] (fun _ => []) =
      (some { bugzilla := "123", jira := c7Issue, cached := false }, 0) :=
  C7_thm c7Issue [("FIDEFE-7", "123")] (fun _ => []) "123" (by decide)

/-- Claim C8: an issue with no discoverable counterpart is never an
error — an uncached issue with an empty remote-link response resolves
to no link (it is excluded, not failed) — and every bug produced by a
successful `get_bugs` run carries a non-empty Bugzilla id, since links
with an empty id are silently dropped before the merge. -/
theorem C8_thm :
    (∀ (jira : JiraIssue) (cache : Cache) (remote : String → List String),
      List.lookup jira.key cache = none → remote jira.key = [] →
      BugzillaJiraLink.new jira cache remote = (none, 1)) ∧
    (∀ (issues : List JiraIssue) (cache : Cache)
       (remote : String → List String) (bz : String → Option BzData)
       (bugs : List BugzillaBug),
      (get_bugs issues cache remote bz).2.2 = some bugs →
      ∀ b ∈ bugs, b.id ≠ "") := by
  constructor
  · intro jira cache remote h1 h2
    unfold BugzillaJiraLink.new
    rw [h1, h2]
  · intro issues cache remote bz bugs h b hb
    exact buildBugs_id_ne bz (resolveLinks issues cache remote).1 bugs h b hb

/-- Witness for C8: a concrete empty-response exclusion and a concrete
merged bug with a non-empty id. -/
theorem C8_witness :
    BugzillaJiraLink.new c7Issue [] (fun _ => []) = (none, 1) ∧
    (BugzillaBug.mk "123" "NEW" none none false c7Issue).id ≠ "" := by
  constructor
  · exact C8_thm.1 c7Issue [] (fun _ => []) (by decide) rfl
  · exact C8_thm.2 [c7Issue] [("FIDEFE-7", "123")] (fun _ => [])
      (fun i => if i == "123" then
        some { status := "NEW", cf_fx_points := "", attachments := none,
               assigned_to := none }
      else none) [BugzillaBug.mk "123" "NEW" none none false c7Issue]
      (by decide) (BugzillaBug.mk "123" "NEW" none none false c7Issue)
      (by decide)

/-- Claim C9: the "no changes necessary" notice is emitted iff none of
the six discrepancy categories produced any line. -/
theorem C9_thm (bugs : List BugzillaBug) :
    noChangesNotice bugs = true ↔
      ((classify bugs).cat1 = [] ∧ (classify bugs).cat2 = [] ∧
       (classify bugs).cat3 = [] ∧ (classify bugs).cat4 = [] ∧
       (classify bugs).cat5 = [] ∧ (classify bugs).cat6 = []) := by
  simp [noChangesNotice, need_changes, List.isEmpty_iff, and_assoc]

/-- Claim C10: a paired Bugzilla record whose `assigned_to` is the
placeholder `nobody@mozilla.org` normalizes to no assignee at all, so
such a bug can satisfy neither the newly-assigned-but-unsynced
condition nor the assignee-mismatch condition (also after the
promotion pass), both of which require a present assignee. -/
theorem C10_thm (link : BugzillaJiraLink) (bz : String → Option BzData)
    (d : BzData) (b : BugzillaBug)
    (hd : bz link.bugzilla = some d)
    (ha : d.assigned_to = some "nobody@mozilla.org")
    (hb : BugzillaBug.new link bz = some b) :
    b.assignee = none ∧ cat1Flag b = false ∧ cat4Flag b = false ∧
    cat4Flag (promoteBug b) = false := by
  unfold BugzillaBug.new at hb
  rw [hd] at hb
  simp only [Option.some.injEq] at hb
  have hassignee : b.assignee = none := by
    rw [← hb, ha]
    simp
  refine ⟨hassignee, ?_, ?_, ?_⟩
  · unfold cat1Flag
    rw [hassignee]
    simp
  · unfold cat4Flag
    rw [hassignee]
    simp
  · rw [promoteBug_cat4Flag]
    unfold cat4Flag
    rw [hassignee]
    simp

/-- Witness for C10 at a concrete nobody-assigned bug. -/
theorem C10_witness :
    (BugzillaBug.mk "300" "NEW" none none false c7Issue).assignee = none ∧
    cat1Flag (BugzillaBug.mk "300" "NEW" none none false c7Issue) = false ∧
    cat4Flag (BugzillaBug.mk "300" "NEW" none none false c7Issue) = false ∧
    cat4Flag (promoteBug (BugzillaBug.mk "300" "NEW" none none false c7Issue)) =
      false :=
  C10_thm c10Link c10Bz
    { status := "NEW", cf_fx_points := "", attachments := none,
      assigned_to := some "nobody@mozilla.org" }
    (BugzillaBug.mk "300" "NEW" none none false c7Issue)
    (by decide) rfl (by decide)
